import Mathlib

/-!
Verification of the SUMO–CARLA co-simulation bridge
(`opencda/co_simulation/sumo_integration/sumo_simulation.py` and the
helper script `opencda/assets/custom_single_town10_cosim/sample_traci.py`).

The Python classes are shallowly embedded: dictionaries become association
lists (Python dicts preserve insertion order, association lists do too),
Python sets become deduplicated lists, one-character strings become `Char`,
mutable object state becomes explicit state records, and calls into the
external `traci` / `carla` engines become explicit function parameters
(for reads) or returned effect lists (for writes).  A raised Python
exception is an `Except.error` / `Option.none` result.
-/

set_option maxHeartbeats 1000000

/-- Lookup in an association list, mirroring a Python dict read
(first matching key wins; dict keys are unique so at most one matches). -/
def lookupAssoc {α β : Type} [DecidableEq α] : List (α × β) → α → Option β
  | [], _ => none
  | (k, v) :: rest, a => if k = a then some v else lookupAssoc rest a

/-- Update in an association list, mirroring a Python dict assignment:
replace the value when the key is present, append otherwise (Python dicts
keep the insertion position of an existing key). -/
def setAssoc {α β : Type} [DecidableEq α] : List (α × β) → α → β → List (α × β)
  | [], a, b => [(a, b)]
  | (k, v) :: rest, a, b =>
      if k = a then (k, b) :: rest else (k, v) :: setAssoc rest a b

/-- SumoSignalState contains the different traffic light states
(one-character strings in the source, `Char` here). -/
def SumoSignalState.RED : Char := 'r'

def SumoSignalState.YELLOW : Char := 'y'

def SumoSignalState.GREEN : Char := 'G'

def SumoSignalState.GREEN_WITHOUT_PRIORITY : Char := 'g'

def SumoSignalState.GREEN_RIGHT_TURN : Char := 's'

def SumoSignalState.RED_YELLOW : Char := 'u'

def SumoSignalState.OFF_BLINKING : Char := 'o'

def SumoSignalState.OFF : Char := 'O'

/-- The coarse traffic-light states of the CARLA world engine
(`carla.TrafficLightState`). -/
inductive CarlaTrafficLightState where
  | Red
  | Yellow
  | Green
  | Off
  | Unknown
  deriving DecidableEq, Repr

/-- SumoTLLogic holds the data relative to a traffic light in sumo:
the junction id, the list of phase-state strings, and the two mappings
built from the program parameters (`_landmark2link` / `_link2landmark`). -/
structure SumoTLLogic where
  tlid : String
  states : List String
  landmark2link : List (String × List (String × Nat))
  link2landmark : List ((String × Nat) × String)
  deriving DecidableEq, Repr

/-- Returns number of internal signals of the traffic light
(`SumoTLLogic.get_number_signals`). -/
def SumoTLLogic.get_number_signals (tl : SumoTLLogic) : Nat :=
  if tl.states.length > 0 then tl.states.headI.length else 0

/-- Returns all the signals of the traffic light
(`SumoTLLogic.get_all_signals`). -/
def SumoTLLogic.get_all_signals (tl : SumoTLLogic) : List (String × Nat) :=
  (List.range tl.get_number_signals).map (fun i => (tl.tlid, i))

/-- Returns all the signals associated with the given landmark
(`SumoTLLogic.get_associated_signals`; a dict `.get` with default `[]`). -/
def SumoTLLogic.get_associated_signals (tl : SumoTLLogic) (landmark_id : String) :
    List (String × Nat) :=
  (lookupAssoc tl.landmark2link landmark_id).getD []

/-- Returns carla traffic light state based on sumo traffic light state
(`SumoTLManager.get_carla_traffic_light_state`). -/
def get_carla_traffic_light_state (sumo_tl_state : Char) : CarlaTrafficLightState :=
  if sumo_tl_state = SumoSignalState.RED ∨ sumo_tl_state = SumoSignalState.RED_YELLOW then
    CarlaTrafficLightState.Red
  else if sumo_tl_state = SumoSignalState.YELLOW then
    CarlaTrafficLightState.Yellow
  else if sumo_tl_state = SumoSignalState.GREEN ∨
      sumo_tl_state = SumoSignalState.GREEN_WITHOUT_PRIORITY then
    CarlaTrafficLightState.Green
  else if sumo_tl_state = SumoSignalState.OFF then
    CarlaTrafficLightState.Off
  else
    CarlaTrafficLightState.Unknown

/-- SumoTLManager state: the static per-junction program table and the
mutable per-junction current program / phase, plus the sticky off flag. -/
structure SumoTLManager where
  tls : List (String × List (String × SumoTLLogic))
  current_program : List (String × String)
  current_phase : List (String × Nat)
  off : Bool
  deriving DecidableEq, Repr

/-- Double dict lookup `self._tls[tlid][program_id]`.  A missing entry is
`none` where the Python raises `KeyError`; the states reached by the
claims below always have the entry present. -/
def lookup2 (tls : List (String × List (String × SumoTLLogic)))
    (tlid program_id : String) : Option SumoTLLogic :=
  (lookupAssoc tls tlid).bind fun progs => lookupAssoc progs program_id

/-- Returns all the traffic light signals (`SumoTLManager.get_all_signals`).
The Python builds a `set`; `dedup` models it. -/
def SumoTLManager.get_all_signals (m : SumoTLManager) : List (String × Nat) :=
  (m.current_program.foldl (fun acc p =>
    match lookup2 m.tls p.1 p.2 with
    | some tl => acc ++ tl.get_all_signals
    | none => acc) []).dedup

/-- Returns all the signals associated with the given landmark
(`SumoTLManager.get_all_associated_signals`; the Python builds a `set`). -/
def SumoTLManager.get_all_associated_signals (m : SumoTLManager)
    (landmark_id : String) : List (String × Nat) :=
  (m.current_program.foldl (fun acc p =>
    match lookup2 m.tls p.1 p.2 with
    | some tl => acc ++ tl.get_associated_signals landmark_id
    | none => acc) []).dedup

/-- The character collected for one signal in `SumoTLManager.get_state`:
`self._tls[tlid][current_program].states[current_phase][link_index]`.
`none` is a Python `KeyError` / `IndexError`. -/
def signalStateChar (m : SumoTLManager) (sig : String × Nat) : Option Char :=
  (lookupAssoc m.current_program sig.1).bind fun cp =>
    (lookupAssoc m.current_phase sig.1).bind fun cph =>
      (lookup2 m.tls sig.1 cp).bind fun tl =>
        (tl.states.get? cph).bind fun phase => phase.data.get? sig.2

/-- All state characters collected by `SumoTLManager.get_state` for a
landmark, before the set test on their number of distinct values. -/
def collectStates (m : SumoTLManager) (landmark_id : String) : Option (List Char) :=
  (m.get_all_associated_signals landmark_id).mapM (signalStateChar m)

/-- Returns the traffic light state of the signals associated with the
given landmark (`SumoTLManager.get_state`).  Outer `none` is a raised
lookup error; `some none` is the Python `return None` (no links resolve);
two or more distinct states fall back to RED with a warning. -/
def SumoTLManager.get_state (m : SumoTLManager) (landmark_id : String) :
    Option (Option Char) :=
  match collectStates m landmark_id with
  | none => none
  | some chars =>
    match chars.dedup with
    | [c] => some (some c)
    | [] => some none
    | _ => some (some SumoSignalState.RED)

/-- The comparison key of the re-sort in `set_states_from_sumo`:
`sorted(landmark2link[c_tlid], key=lambda x: x[1])`. -/
def linkLe (a b : String × Nat) : Prop := a.2 ≤ b.2

instance : DecidableRel linkLe := fun a b => Nat.decLe a.2 b.2

instance : IsTotal (String × Nat) linkLe := ⟨fun a b => Nat.le_total a.2 b.2⟩

instance : IsTrans (String × Nat) linkLe := ⟨fun _ _ _ => Nat.le_trans⟩

/-- The stable sort by link index performed for each landmark in
`set_states_from_sumo`. -/
def sortLinks (links : List (String × Nat)) : List (String × Nat) :=
  links.insertionSort linkLe

/-- One inner-loop iteration of `set_states_from_sumo`: resolve the
world-engine light for the link (`_link2landmark[junction_plus_idx]`) and
read its state character out of the junction state string
(`traci_junction_state[junction_plus_idx[1]]`).  `none` is a raised
`KeyError` / `IndexError`. -/
def resolveLink (link2landmark : List ((String × Nat) × String))
    (junction_state : String) (link : String × Nat) : Option (String × Char) :=
  (lookupAssoc link2landmark link).bind fun lm =>
    (junction_state.data.get? link.2).map fun c => (lm, c)

/-- Error message of the raise in `set_states_from_sumo`. -/
def unsupportedDirectionsMsg : String :=
  "There are either less than two or greater than three directions of travel from this light."

/-- The per-landmark body of `set_states_from_sumo`: sort the landmark's
links by link index, collect their state characters, then derive the one
coarse CARLA state (3 links: middle state; 2 links: RED if some link is
RED, else the translation of the first); any other count raises.  The
target light is the one resolved on the last loop iteration
(`carla_tl_to_change`).  Result: landmark of the set light and the state
set on it. -/
def translateLandmark (link2landmark : List ((String × Nat) × String))
    (junction_state : String) (links : List (String × Nat)) :
    Except String (String × CarlaTrafficLightState) :=
  match (sortLinks links).mapM (resolveLink link2landmark junction_state) with
  | none => Except.error "lookup failure"
  | some pairs =>
    match pairs with
    | [p0, p1] =>
      if SumoSignalState.RED ∈ [p0.2, p1.2] then
        Except.ok (p1.1, CarlaTrafficLightState.Red)
      else
        Except.ok (p1.1, get_carla_traffic_light_state p0.2)
    | [_, p1, p2] => Except.ok (p2.1, get_carla_traffic_light_state p1.2)
    | _ => Except.error unsupportedDirectionsMsg

/-- The landmark loop of `set_states_from_sumo` over one program's
`_landmark2link` table: apply landmarks in order, stopping at the first
raised exception.  Returns the world-engine light assignments already
applied and the error, if one was raised. -/
def applyLandmarks (link2landmark : List ((String × Nat) × String))
    (junction_state : String) :
    List (String × List (String × Nat)) →
    List (String × CarlaTrafficLightState) × Option String
  | [] => ([], none)
  | (_, links) :: rest =>
    match translateLandmark link2landmark junction_state links with
    | Except.error e => ([], some e)
    | Except.ok a =>
      match applyLandmarks link2landmark junction_state rest with
      | (assigned, err) => (a :: assigned, err)

/-- The program loop of `set_states_from_sumo`: every program of every
junction in `_tls`, in table order; an exception aborts the whole call,
keeping the light assignments already applied.  `junctionState` models
`traci.trafficlight.getRedYellowGreenState`. -/
def set_states_from_sumo_programs (junctionState : String → String) :
    List SumoTLLogic → List (String × CarlaTrafficLightState) × Option String
  | [] => ([], none)
  | tl :: rest =>
    match applyLandmarks tl.link2landmark (junctionState tl.tlid) tl.landmark2link with
    | (assigned, some e) => (assigned, some e)
    | (assigned, none) =>
      match set_states_from_sumo_programs junctionState rest with
      | (more, err) => (assigned ++ more, err)

/-- Sets the CARLA traffic lights' states from the corresponding SUMO
traffic lights (`SumoTLManager.set_states_from_sumo`). -/
def SumoTLManager.set_states_from_sumo (m : SumoTLManager)
    (junctionState : String → String) :
    List (String × CarlaTrafficLightState) × Option String :=
  set_states_from_sumo_programs junctionState
    (m.tls.flatMap fun p => p.2.map (·.2))

/-- The lane-engine side store of link states written through
`traci.trafficlight.setLinkState`, as a total map from signals to state
characters. -/
def LinkStore : Type := (String × Nat) → Char

/-- One `traci.trafficlight.setLinkState(tlid, link_index, state)` call. -/
def setLinkState (store : LinkStore) (sig : String × Nat) (state : Char) : LinkStore :=
  fun k => if k = sig then state else store k

/-- The write loop of `SumoTLManager.switch_off`: set every signal of the
list to OFF in the lane engine. -/
def writeOff (sigs : List (String × Nat)) (store : LinkStore) : LinkStore :=
  sigs.foldl (fun acc sig => setLinkState acc sig SumoSignalState.OFF) store

/-- Switch off all traffic lights (`SumoTLManager.switch_off`): every
current-program signal is set to OFF in the lane engine, then the sticky
`_off` flag is set. -/
def SumoTLManager.switch_off (m : SumoTLManager) (store : LinkStore) :
    SumoTLManager × LinkStore :=
  ({ m with off := true }, writeOff m.get_all_signals store)

/-- Tick to traffic light manager (`SumoTLManager.tick`).  `idList` models
`traci.trafficlight.getIDList()` and `results` the per-light subscription
results (current program, current phase).  Runtime state is updated only
while the manager is not switched off and the reported program is not the
externally driven sentinel. -/
def SumoTLManager.tick (idList : List String)
    (results : String → String × Nat) (m : SumoTLManager) : SumoTLManager :=
  if m.off = false then
    idList.foldl (fun acc tl_id =>
      let current_program := (results tl_id).1
      let current_phase := (results tl_id).2
      if current_program ≠ "online" then
        { acc with
          current_program := setAssoc acc.current_program tl_id current_program,
          current_phase := setAssoc acc.current_phase tl_id current_phase }
      else acc) m
  else m

/-- Iterated manager ticks, one entry per simulation step. -/
def SumoTLManager.run_ticks (m : SumoTLManager) :
    List (List String × (String → String × Nat)) → SumoTLManager
  | [] => m
  | e :: rest => (m.tick e.1 e.2).run_ticks rest

/-- The per-step tracking state of the vehicle-removal check in
`sample_traci.py`: last step's vehicle count and ID list, and the last
computed removed-vehicles list. -/
structure VehTracker where
  current_vehicle_count : Nat
  current_vehicle_id_list : List String
  removed_vehicles : List String
  deriving DecidableEq, Repr

/-- One loop iteration of the vehicle-removal diff in `sample_traci.py`:
the removal diff (previous IDs not among current IDs) is computed only when
this step's vehicle count is strictly below the previous one; the previous
count and ID list are then replaced by the current ones. -/
def refreshStep (t : VehTracker) (vehicle_id_list : List String) : VehTracker :=
  let vehicle_count := vehicle_id_list.length
  let removed :=
    if vehicle_count < t.current_vehicle_count then
      t.current_vehicle_id_list.filter (fun v => !(vehicle_id_list.contains v))
    else t.removed_vehicles
  { current_vehicle_count := vehicle_count,
    current_vehicle_id_list := vehicle_id_list,
    removed_vehicles := removed }

/-- Spawns a new actor (`SumoSimulation.spawn_actor`).  State is the
`_sequential_id` counter; `engineAccepts` models whether
`traci.vehicle.add` succeeds or raises `TraCIException`; on rejection the
error is logged and the sentinel `INVALID_ACTOR_ID` — modelled as `none` —
is returned with the counter unchanged.  `color` only feeds the engine-side
`setColor` call and does not influence the result. -/
def spawn_actor (engineAccepts : Bool) (color : Option String)
    (sequential_id : Nat) : Nat × Option String :=
  let actor_id := "carla" ++ toString sequential_id
  if engineAccepts then (sequential_id + 1, some actor_id)
  else (sequential_id, none)

/-- A run of spawn requests: one engine accept/reject decision per call,
threading the `_sequential_id` counter; collects each call's result. -/
def runSpawns (sequential_id : Nat) : List Bool → List (Option String)
  | [] => []
  | accept :: rest =>
    match spawn_actor accept none sequential_id with
    | (next_id, result) => result :: runSpawns next_id rest

/-- Concrete program of SUMO junction 918 from the documented scenario:
landmark 1032 controls links 0 and 1, landmark 1034 links 2 and 3, and the
active phase string is GGgrrrGGgrrr. -/
def tl918 : SumoTLLogic :=
  { tlid := "918",
    states := ["GGgrrrGGgrrr"],
    landmark2link := [("1032", [("918", 0), ("918", 1)]),
                      ("1034", [("918", 2), ("918", 3)])],
    link2landmark := [(("918", 0), "1032"), (("918", 1), "1032"),
                      (("918", 2), "1034"), (("918", 3), "1034")] }

/-- Manager holding junction 918 with its single program 0 active in
phase 0. -/
def m918 : SumoTLManager :=
  { tls := [("918", [("0", tl918)])],
    current_program := [("918", "0")],
    current_phase := [("918", 0)],
    off := false }

/-- Junction with a 4-direction landmark lmA followed by a 2-direction
landmark lmB, used to observe how the unsupported-direction-count error
interacts with later landmarks of the same call. -/
def tl900 : SumoTLLogic :=
  { tlid := "900",
    states := ["rrrrrr"],
    landmark2link := [("lmA", [("900", 0), ("900", 1), ("900", 2), ("900", 3)]),
                      ("lmB", [("900", 4), ("900", 5)])],
    link2landmark := [(("900", 0), "lmA"), (("900", 1), "lmA"),
                      (("900", 2), "lmA"), (("900", 3), "lmA"),
                      (("900", 4), "lmB"), (("900", 5), "lmB")] }

/-- Manager holding only junction 900. -/
def m900 : SumoTLManager :=
  { tls := [("900", [("0", tl900)])],
    current_program := [("900", "0")],
    current_phase := [("900", 0)],
    off := false }

/-- C5: the fine-to-coarse state translation is total: RED and RED_YELLOW
map to Red, YELLOW to Yellow, GREEN and GREEN_WITHOUT_PRIORITY to Green,
OFF to Off, and every other character — in particular GREEN_RIGHT_TURN and
OFF_BLINKING — to Unknown. -/
theorem get_carla_traffic_light_state_total :
    get_carla_traffic_light_state 'r' = CarlaTrafficLightState.Red ∧
    get_carla_traffic_light_state 'u' = CarlaTrafficLightState.Red ∧
    get_carla_traffic_light_state 'y' = CarlaTrafficLightState.Yellow ∧
    get_carla_traffic_light_state 'G' = CarlaTrafficLightState.Green ∧
    get_carla_traffic_light_state 'g' = CarlaTrafficLightState.Green ∧
    get_carla_traffic_light_state 'O' = CarlaTrafficLightState.Off ∧
    get_carla_traffic_light_state 's' = CarlaTrafficLightState.Unknown ∧
    get_carla_traffic_light_state 'o' = CarlaTrafficLightState.Unknown ∧
    ∀ c : Char, c ≠ 'r' → c ≠ 'u' → c ≠ 'y' → c ≠ 'G' → c ≠ 'g' → c ≠ 'O' →
      get_carla_traffic_light_state c = CarlaTrafficLightState.Unknown := by
  refine ⟨by decide, by decide, by decide, by decide, by decide, by decide,
    by decide, by decide, ?_⟩
  intro c h1 h2 h3 h4 h5 h6
  simp [get_carla_traffic_light_state, SumoSignalState.RED, SumoSignalState.RED_YELLOW,
    SumoSignalState.YELLOW, SumoSignalState.GREEN, SumoSignalState.GREEN_WITHOUT_PRIORITY,
    SumoSignalState.OFF, h1, h2, h3, h4, h5, h6]

/-- Witness for C5 at the concrete unmatched character x. -/
theorem get_carla_traffic_light_state_total_witness :
    get_carla_traffic_light_state 'x' = CarlaTrafficLightState.Unknown :=
  get_carla_traffic_light_state_total.2.2.2.2.2.2.2.2 'x'
    (by decide) (by decide) (by decide) (by decide) (by decide) (by decide)

/-- C9: when all phase strings of a traffic program have the same length
(the uniform-width invariant of the engine-supplied data), the reported
signal count equals the length of every phase string. -/
theorem get_number_signals_uniform_width (tl : SumoTLLogic)
    (huniform : ∀ s ∈ tl.states, ∀ t ∈ tl.states, s.length = t.length) :
    ∀ s ∈ tl.states, tl.get_number_signals = s.length := by
  intro s hs
  rcases h : tl.states with _ | ⟨hd, tlrest⟩
  · rw [h] at hs
    exact absurd hs (List.not_mem_nil s)
  · have hhd : hd ∈ tl.states := by rw [h]; exact List.mem_cons_self hd tlrest
    have : tl.get_number_signals = hd.length := by
      unfold SumoTLLogic.get_number_signals
      rw [h]
      simp
    rw [this]
    exact huniform hd hhd s hs

/-- Witness for C9 at a concrete two-phase program of width 4. -/
theorem get_number_signals_uniform_width_witness :
    SumoTLLogic.get_number_signals ⟨"725", ["rrGG", "GGrr"], [], []⟩ = 4 :=
  get_number_signals_uniform_width ⟨"725", ["rrGG", "GGrr"], [], []⟩
    (by decide) "rrGG" (by decide)

/-- The successful results of a spawn run are exactly the identifiers
derived from the consecutive counter values starting at the initial
counter. -/
theorem runSpawns_filterMap : ∀ (ds : List Bool) (s : Nat),
    (runSpawns s ds).filterMap id =
      (List.range' s (ds.count true)).map (fun n => "carla" ++ toString n)
  | [], _ => by simp [runSpawns]
  | true :: rest, s => by
    have hstep : runSpawns s (true :: rest) =
        some ("carla" ++ toString s) :: runSpawns (s + 1) rest := rfl
    have hcount : (true :: rest).count true = rest.count true + 1 := by
      simp [List.count_cons]
    rw [hstep, List.filterMap_cons, hcount, List.range'_succ]
    simp only [id, List.map_cons]
    rw [runSpawns_filterMap rest (s + 1)]
  | false :: rest, s => by
    have hstep : runSpawns s (false :: rest) = none :: runSpawns s rest := rfl
    have hcount : (false :: rest).count true = rest.count true := by
      simp [List.count_cons]
    rw [hstep, List.filterMap_cons, hcount]
    simp only [id]
    rw [runSpawns_filterMap rest s]

/-- C8: across any run of spawn requests the successful calls return the
identifiers derived from the strictly increasing consecutive counter
values starting at the current counter, and a rejected request returns
the INVALID sentinel (modelled as none) with the counter untouched
instead of raising. -/
theorem spawn_actor_increasing_ids (s : Nat) (ds : List Bool) :
    (runSpawns s ds).filterMap id =
      (List.range' s (ds.count true)).map (fun n => "carla" ++ toString n) ∧
    List.Pairwise (fun a b => a < b) (List.range' s (ds.count true)) ∧
    (∀ color, spawn_actor false color s = (s, none)) :=
  ⟨runSpawns_filterMap ds s, List.pairwise_lt_range' s (ds.count true),
    fun _ => rfl⟩

/-- C10: a rejected spawn request leaves the sequential counter unchanged,
so the next successful call returns the very identifier the rejected call
attempted, and the identifiers of the successful spawns of a fresh session
(counter 0) are exactly carla0, carla1, ... with no gaps. -/
theorem spawn_actor_reject_preserves_counter (ds : List Bool) :
    (∀ s color, spawn_actor false color s = (s, none)) ∧
    (∀ s color color2,
      (spawn_actor true color2 ((spawn_actor false color s).1)).2 =
        some ("carla" ++ toString s)) ∧
    (runSpawns 0 ds).filterMap id =
      (List.range (ds.count true)).map (fun n => "carla" ++ toString n) := by
  refine ⟨fun _ _ => rfl, fun _ _ _ => rfl, ?_⟩
  rw [List.range_eq_range']
  exact runSpawns_filterMap ds 0

/-- C7 counterexample: with previous snapshot a,b,c and current snapshot
a,c,d the counts are equal, so the guarded diff is not recomputed: the
removed list stays at its initial empty value instead of the claimed
singleton b. -/
theorem refresh_diff_cex :
    (refreshStep ⟨3, ["a", "b", "c"], []⟩ ["a", "c", "d"]).removed_vehicles = [] ∧
    ¬ "b" ∈ (refreshStep ⟨3, ["a", "b", "c"], []⟩ ["a", "c", "d"]).removed_vehicles := by
  constructor
  · rfl
  · intro h
    simp [refreshStep] at h

/-- C7 amended: the previous count and ID list are always replaced by the
current ones, but the removal diff (previous minus current, every removed
ID coming from the previous snapshot and absent from the current one) is
computed only when the current count is strictly below the previous count;
otherwise the removed list keeps its prior value.  No spawned set is
derived from the snapshots. -/
theorem refresh_diff_guarded (t : VehTracker) (curr : List String) :
    ((refreshStep t curr).current_vehicle_id_list = curr ∧
     (refreshStep t curr).current_vehicle_count = curr.length) ∧
    (curr.length < t.current_vehicle_count →
      (refreshStep t curr).removed_vehicles =
        t.current_vehicle_id_list.filter (fun v => !(curr.contains v)) ∧
      ∀ v ∈ (refreshStep t curr).removed_vehicles,
        v ∈ t.current_vehicle_id_list ∧ ¬ v ∈ curr) ∧
    (¬ curr.length < t.current_vehicle_count →
      (refreshStep t curr).removed_vehicles = t.removed_vehicles) := by
  refine ⟨⟨rfl, rfl⟩, fun hlt => ⟨?_, ?_⟩, fun hge => ?_⟩
  · simp [refreshStep, hlt]
  · intro v hv
    simp [refreshStep, hlt] at hv
    simpa using hv
  · simp [refreshStep, hge]

/-- Witness for C7's amended theorem: a strictly shrinking snapshot pair,
where the diff does fire and yields exactly the vanished ID. -/
theorem refresh_diff_guarded_witness :
    (refreshStep ⟨3, ["a", "b", "c"], []⟩ ["a", "c"]).removed_vehicles = ["b"] := by
  have h := (refresh_diff_guarded ⟨3, ["a", "b", "c"], []⟩ ["a", "c"]).2.1
    (by decide)
  rw [h.1]
  rfl

/-- Pointwise combination of two pairwise facts on the same list. -/
theorem pairwise_and_of {α : Type} {r s t : α → α → Prop}
    (h : ∀ a b, r a b → s a b → t a b) :
    ∀ {l : List α}, l.Pairwise r → l.Pairwise s → l.Pairwise t := by
  intro l hr
  induction hr with
  | nil => intro _; exact List.Pairwise.nil
  | @cons a l' hhead _ ih =>
    intro hs
    cases hs with
    | cons shead stail =>
      exact List.Pairwise.cons (fun b hb => h _ _ (hhead b hb) (shead b hb)) (ih stail)

/-- C1: for a landmark whose sorted links resolve to exactly two
direction states, the translation sets the light to Red as soon as either
direction (first or second) reads RED, and otherwise to the translation of
the first direction's state. -/
theorem two_direction_red_merge (l2l : List ((String × Nat) × String))
    (js : String) (links : List (String × Nat)) (p0 p1 : String × Char)
    (h : (sortLinks links).mapM (resolveLink l2l js) = some [p0, p1]) :
    (p0.2 = 'r' ∨ p1.2 = 'r' →
      translateLandmark l2l js links = Except.ok (p1.1, CarlaTrafficLightState.Red)) ∧
    (p0.2 ≠ 'r' → p1.2 ≠ 'r' →
      translateLandmark l2l js links =
        Except.ok (p1.1, get_carla_traffic_light_state p0.2)) := by
  constructor
  · intro hr
    have hm : SumoSignalState.RED ∈ [p0.2, p1.2] := by
      rcases hr with hc | hc <;> simp [SumoSignalState.RED, hc]
    unfold translateLandmark
    rw [h]
    simp [hm]
  · intro h0 h1
    have hm : ¬ SumoSignalState.RED ∈ [p0.2, p1.2] := by
      intro hmem
      rcases (by simpa [SumoSignalState.RED] using hmem : 'r' = p0.2 ∨ 'r' = p1.2) with
        hc | hc
      · exact h0 hc.symm
      · exact h1 hc.symm
    unfold translateLandmark
    rw [h]
    simp [hm]

/-- Witness for C1 at the documented scenario: link states r and G give a
Red output because r is present. -/
theorem two_direction_red_merge_witness :
    translateLandmark [(("918", 0), "L"), (("918", 1), "L")] "rG"
      [("918", 0), ("918", 1)] = Except.ok ("L", CarlaTrafficLightState.Red) :=
  (two_direction_red_merge [(("918", 0), "L"), (("918", 1), "L")] "rG"
      [("918", 0), ("918", 1)] ("L", 'r') ("L", 'G') (by decide)).1 (Or.inl rfl)

/-- C2: for a landmark with three links (with pairwise distinct link
indices), the translation first re-sorts the links into strictly
increasing link-index order — the sorted list is a permutation of the
stored one — and sets the light to the translation of the middle
(second-smallest-index) link's state. -/
theorem three_direction_middle_state (l2l : List ((String × Nat) × String))
    (js : String) (links : List (String × Nat)) (p0 p1 p2 : String × Char)
    (hnodup : links.Pairwise (fun a b => a.2 ≠ b.2))
    (h : (sortLinks links).mapM (resolveLink l2l js) = some [p0, p1, p2]) :
    List.Perm (sortLinks links) links ∧
    (sortLinks links).Pairwise (fun a b => a.2 < b.2) ∧
    translateLandmark l2l js links =
      Except.ok (p2.1, get_carla_traffic_light_state p1.2) := by
  have hperm : List.Perm (sortLinks links) links := List.perm_insertionSort linkLe links
  refine ⟨hperm, ?_, ?_⟩
  · have hsorted : (sortLinks links).Pairwise linkLe :=
      List.sorted_insertionSort linkLe links
    have hne : (sortLinks links).Pairwise (fun a b => a.2 ≠ b.2) :=
      (hperm.pairwise_iff (fun hab => Ne.symm hab)).mpr hnodup
    exact pairwise_and_of (fun a b hle hab => Nat.lt_of_le_of_ne hle hab) hsorted hne
  · unfold translateLandmark
    rw [h]

/-- Witness for C2 with the out-of-order link list from the source
comment (indices 10, 11, 9): after sorting, the middle link has index 10
whose state y translates to Yellow. -/
theorem three_direction_middle_state_witness :
    translateLandmark
      [(("725", 9), "1033"), (("725", 10), "1033"), (("725", 11), "1033")]
      "GGGGGGGGGryG" [("725", 10), ("725", 11), ("725", 9)] =
      Except.ok ("1033", CarlaTrafficLightState.Yellow) := by
  have h := (three_direction_middle_state
    [(("725", 9), "1033"), (("725", 10), "1033"), (("725", 11), "1033")]
    "GGGGGGGGGryG" [("725", 10), ("725", 11), ("725", 9)]
    ("1033", 'r') ("1033", 'y') ("1033", 'G')
    (by decide) (by decide)).2.2
  rw [h]
  rfl

/-- C4 counterexample: junction 900 lists the 4-direction landmark lmA
before the 2-direction landmark lmB.  The call raises the
unsupported-direction-count error on lmA and returns with no light set at
all — lmB, a remaining landmark of the same call, is not translated. -/
theorem unsupported_direction_count_cex :
    SumoTLManager.set_states_from_sumo m900 (fun _ => "rrrrrr") =
      ([], some unsupportedDirectionsMsg) := by
  rfl

/-- C4 amended: a landmark whose resolved, sorted link list has a length
other than 2 or 3 makes the translation raise the
unsupported-direction-count error, and the error aborts the rest of the
call: no later landmark is translated, while landmarks translated earlier
in the call keep their applied states. -/
theorem unsupported_direction_count_aborts_call
    (l2l : List ((String × Nat) × String)) (js : String)
    (links : List (String × Nat)) (pairs : List (String × Char))
    (h : (sortLinks links).mapM (resolveLink l2l js) = some pairs)
    (h2 : pairs.length ≠ 2) (h3 : pairs.length ≠ 3) :
    translateLandmark l2l js links = Except.error unsupportedDirectionsMsg ∧
    (∀ lm rest, applyLandmarks l2l js ((lm, links) :: rest) =
      ([], some unsupportedDirectionsMsg)) ∧
    (∀ lm0 links0 a lm rest, translateLandmark l2l js links0 = Except.ok a →
      applyLandmarks l2l js ((lm0, links0) :: (lm, links) :: rest) =
        ([a], some unsupportedDirectionsMsg)) := by
  have herr : translateLandmark l2l js links = Except.error unsupportedDirectionsMsg := by
    unfold translateLandmark
    rw [h]
    rcases pairs with _ | ⟨a0, _ | ⟨a1, _ | ⟨a2, _ | ⟨a3, tail⟩⟩⟩⟩
    · rfl
    · rfl
    · exact absurd rfl h2
    · exact absurd rfl h3
    · rfl
  refine ⟨herr, fun lm rest => ?_, fun lm0 links0 a lm rest ha => ?_⟩
  · simp [applyLandmarks, herr]
  · simp [applyLandmarks, herr, ha]

/-- Witness for C4's amended theorem on the junction-900 table: the
4-direction landmark lmA aborts the landmark loop, so lmB is dropped. -/
theorem unsupported_direction_count_aborts_call_witness :
    applyLandmarks tl900.link2landmark "rrrrrr" tl900.landmark2link =
      ([], some unsupportedDirectionsMsg) := by
  have h := (unsupported_direction_count_aborts_call tl900.link2landmark "rrrrrr"
    [("900", 0), ("900", 1), ("900", 2), ("900", 3)]
    [("lmA", 'r'), ("lmA", 'r'), ("lmA", 'r'), ("lmA", 'r')]
    (by decide) (by decide) (by decide)).2.1 "lmA"
    [("lmB", [("900", 4), ("900", 5)])]
  exact h

/-- A duplicate-free list that contains c and whose members all equal c is
the singleton list of c. -/
theorem nodup_all_eq_singleton {α : Type} {l : List α} {c : α}
    (hnd : l.Nodup) (hc : c ∈ l) (hall : ∀ x ∈ l, x = c) : l = [c] := by
  rcases l with _ | ⟨a, t⟩
  · exact absurd hc (List.not_mem_nil c)
  · have ha : a = c := hall a (List.mem_cons_self a t)
    have ht : t = [] := by
      rcases t with _ | ⟨b, u⟩
      · rfl
      · have hb : b = c := hall b (List.mem_cons_of_mem a (List.mem_cons_self b u))
        have hmem : a ∈ b :: u := by
          rw [hb, ← ha]
          exact List.mem_cons_self a u
        exact absurd hmem (List.nodup_cons.mp hnd).1
    rw [ha, ht]

/-- Reduction of the landmark-state query once the per-link collection is
known. -/
theorem get_state_eq_of_collect {m : SumoTLManager} {lm : String}
    {chars : List Char} (h : collectStates m lm = some chars) :
    m.get_state lm =
      (match chars.dedup with
       | [c] => some (some c)
       | [] => some none
       | _ => some (some SumoSignalState.RED)) := by
  unfold SumoTLManager.get_state
  rw [h]

/-- C3: when the per-link state collection of a landmark succeeds, the
landmark state is the common character if all collected characters agree,
the RED fail-safe if two distinct characters were collected, and none if
no links resolve; and on the documented scenario (junction 918, landmark
1032 on links 0 and 1, phase string GGgrrrGGgrrr) the result is GREEN. -/
theorem get_state_agreement_spec :
    (∀ (m : SumoTLManager) (lm : String) (chars : List Char),
      collectStates m lm = some chars →
      ((∀ c : Char, c ∈ chars → (∀ x ∈ chars, x = c) →
          m.get_state lm = some (some c)) ∧
       ((∃ a ∈ chars, ∃ b ∈ chars, a ≠ b) →
          m.get_state lm = some (some SumoSignalState.RED)) ∧
       (chars = [] → m.get_state lm = some none))) ∧
    m918.get_state "1032" = some (some SumoSignalState.GREEN) := by
  constructor
  · intro m lm chars h
    refine ⟨?_, ?_, ?_⟩
    · intro c hc hall
      have hd : chars.dedup = [c] := by
        apply nodup_all_eq_singleton chars.nodup_dedup
        · exact List.mem_dedup.mpr hc
        · intro x hx
          exact hall x (List.mem_dedup.mp hx)
      rw [get_state_eq_of_collect h, hd]
    · rintro ⟨a, ha, b, hb, hab⟩
      have ha' : a ∈ chars.dedup := List.mem_dedup.mpr ha
      have hb' : b ∈ chars.dedup := List.mem_dedup.mpr hb
      rw [get_state_eq_of_collect h]
      rcases hd : chars.dedup with _ | ⟨x, _ | ⟨y, t⟩⟩
      · rw [hd] at ha'
        exact absurd ha' (List.not_mem_nil a)
      · rw [hd] at ha' hb'
        have hax : a = x := List.mem_singleton.mp ha'
        have hbx : b = x := List.mem_singleton.mp hb'
        exact absurd (hax.trans hbx.symm) hab
      · rfl
    · intro hmt
      rw [get_state_eq_of_collect h, hmt]
      rfl
  · rfl

/-- Witness for C3 at landmark 1034 of junction 918: its links read g and
r under phase GGgrrrGGgrrr, which disagree, so the fail-safe RED comes
back. -/
theorem get_state_agreement_spec_witness :
    m918.get_state "1034" = some (some SumoSignalState.RED) :=
  (get_state_agreement_spec.1 m918 "1034" ['g', 'r'] (by decide)).2.1
    ⟨'g', by decide, 'r', by decide, by decide⟩

/-- Memberwise description of the lane-engine store after the OFF write
loop of `switch_off`. -/
theorem writeOff_eq (sigs : List (String × Nat)) (store : LinkStore)
    (k : String × Nat) :
    writeOff sigs store k = if k ∈ sigs then SumoSignalState.OFF else store k := by
  induction sigs generalizing store with
  | nil => simp [writeOff]
  | cons s rest ih =>
    have hstep : writeOff (s :: rest) store =
        writeOff rest (setLinkState store s SumoSignalState.OFF) := rfl
    rw [hstep, ih]
    by_cases hk : k ∈ rest
    · simp [hk, List.mem_cons]
    · by_cases hks : k = s
      · simp [hk, hks, setLinkState]
      · simp [hk, hks, setLinkState, List.mem_cons]

/-- Writing OFF over the same signal list twice changes nothing the second
time. -/
theorem writeOff_idem (sigs : List (String × Nat)) (store : LinkStore) :
    writeOff sigs (writeOff sigs store) = writeOff sigs store := by
  funext k
  rw [writeOff_eq, writeOff_eq]
  by_cases hk : k ∈ sigs <;> simp [hk]

/-- A switched-off manager ignores every sequence of ticks. -/
theorem run_ticks_off (m : SumoTLManager) (h : m.off = true) :
    ∀ ticks, m.run_ticks ticks = m := by
  intro ticks
  induction ticks with
  | nil => rfl
  | cons e rest ih =>
    have hstep : m.tick e.1 e.2 = m := by
      unfold SumoTLManager.tick
      rw [h]
      simp
    show (m.tick e.1 e.2).run_ticks rest = m
    rw [hstep, ih]

/-- C6: switching off sets the sticky disabled flag and drives every
current-program signal link in the lane engine to OFF; from then on every
sequence of ticks leaves the manager state (current programs and phases
included) unchanged, and a second switch-off is a no-op: it returns the
very same manager and lane-engine store, all signals still OFF. -/
theorem switch_off_sticky_and_idem (m : SumoTLManager) (store : LinkStore) :
    ((m.switch_off store).1.off = true) ∧
    (∀ sig ∈ m.get_all_signals, (m.switch_off store).2 sig = SumoSignalState.OFF) ∧
    (∀ ticks, ((m.switch_off store).1).run_ticks ticks = (m.switch_off store).1) ∧
    ((m.switch_off store).1.switch_off (m.switch_off store).2 = m.switch_off store) := by
  refine ⟨rfl, ?_, ?_, ?_⟩
  · intro sig hs
    show writeOff m.get_all_signals store sig = SumoSignalState.OFF
    rw [writeOff_eq]
    simp [hs]
  · intro ticks
    exact run_ticks_off _ rfl ticks
  · unfold SumoTLManager.switch_off
    simp only [Prod.mk.injEq]
    exact ⟨trivial, writeOff_idem m.get_all_signals store⟩

/-- Witness for C6 at junction 918 and its first signal link. -/
theorem switch_off_sticky_and_idem_witness :
    (m918.switch_off (fun _ => 'G')).2 ("918", 0) = SumoSignalState.OFF :=
  (switch_off_sticky_and_idem m918 (fun _ => 'G')).2.1 ("918", 0) (by decide)
